import Mathlib

/-!
Verification development for the BINGO BOQ engine.

Shallow embedding of the BOQ generation / refinement / validation pipeline of
src/src/services/geminiService.ts, the pricing of src/utils/exportToXlsx.ts,
the caller state transitions of src/src/App.tsx, and the offline brand
normalizer script (src/unnamed/part_003).

Modelling conventions:
- JavaScript numbers are modelled as exact rationals.
- A value that may be absent or non-numeric at runtime is an Option; the
  JavaScript truthiness coercion x || d (which also replaces 0 and the empty
  string by the default) is modelled explicitly.
- The completion oracle is opaque: engine functions take the oracle outcome as
  a parameter. A thrown error or a JSON.parse failure is an Except.error.
- The product catalog data file is not part of the sources, so every catalog
  consumer is parametrized by the product list.
-/

namespace BINGO

/-- JavaScript x || d on an optional number: absent or zero falls back to d. -/
def qOrDefault (o : Option ℚ) (d : ℚ) : ℚ :=
  match o with
  | none => d
  | some x => if x = 0 then d else x

/-- JavaScript x || d on an optional integer (parseInt result). -/
def intOrDefault (o : Option ℤ) (d : ℤ) : ℤ :=
  match o with
  | none => d
  | some x => if x = 0 then d else x

/-- JavaScript x || d on an optional string: absent or empty falls back to d. -/
def strOrDefault (o : Option String) (d : String) : String :=
  match o with
  | none => d
  | some s => if s = "" then d else s

/-- ASCII lower-casing, the behaviour of toLowerCase on the catalog data
(structurally recursive so that proofs can evaluate it). -/
def strLower (s : String) : String :=
  String.mk (s.data.map Char.toLower)

/-- Leading and trailing whitespace removal on a character list. -/
def trimChars (l : List Char) : List Char :=
  ((l.dropWhile Char.isWhitespace).reverse.dropWhile Char.isWhitespace).reverse

/-- String trim, the behaviour of String.prototype.trim for ASCII data. -/
def strTrim (s : String) : String :=
  String.mk (trimChars s.data)

/-- Split a character list at commas, the behaviour of split(","). -/
def splitComma : List Char → List (List Char)
  | [] => [[]]
  | c :: rest =>
    let r := splitComma rest
    if c = ',' then [] :: r
    else
      match r with
      | [] => [[c]]
      | h :: t => (c :: h) :: t

/-- Join with a comma-space separator, the behaviour of join(", "). -/
def joinComma : List String → String
  | [] => ""
  | [s] => s
  | s :: rest => s ++ ", " ++ joinComma rest

/-- A product record of the catalog data file (heterogeneous vendor fields). -/
structure Product where
  brand : String
  model : Option String := none
  awmdb_id : Option String := none
  description : String := ""
  category : Option String := none
  price : Option ℚ := none
  price_inr : Option ℚ := none
deriving Repr, DecidableEq

/-- searchDatabase of geminiService.ts: optional case-insensitive brand match
and strict case-sensitive category match. -/
def searchDatabase (db : List Product) (brand : Option String)
    (category : Option String) : List Product :=
  db.filter fun p =>
    (match brand with
     | none => true
     | some b => strLower p.brand == strLower b)
    &&
    (match category with
     | none => true
     | some c => p.category == some c)

/-- Category mapping of generateBoq (categoryMap constant), including the
lookup fallback categoryMap[system] || []. -/
def categoryMap (system : String) : List String :=
  if system = "display" then ["Display System", "Hiperwall System"]
  else if system = "video_conferencing" then ["VC system", "VC System"]
  else if system = "audio" then ["Audio System"]
  else if system = "connectivity_control" then
    ["Cables & Connectors", "Cables and Connectors", "Control System",
     "Room Scheduler"]
  else if system = "infrastructure" then
    ["Display support system", "Display Support System",
     "Display Supoort System", "Display support System", "AV Rack System",
     "AV Rack system"]
  else if system = "acoustics" then ["Acoustic Treatment"]
  else []

/-- The six abstract system keys recognized by categoryMap. -/
def knownSystemKeys : List String :=
  ["display", "video_conferencing", "audio", "connectivity_control",
   "infrastructure", "acoustics"]

/-- Default requiredSystems used when answers.requiredSystems is absent. -/
def requiredSystemsDefault : List String :=
  ["display", "video_conferencing", "audio", "connectivity_control",
   "infrastructure", "acoustics"]

/-- answers.requiredSystems || default (an absent list falls back to the
default; a present list, even empty, is kept). -/
def requiredSystemsOf (o : Option (List String)) : List String :=
  o.getD requiredSystemsDefault

/-- allowedCategories of generateBoq: flat-map through categoryMap, then push
the two always-included service categories. Note: no deduplication. -/
def allowedCategoriesOf (requiredSystems : List String) : List String :=
  (requiredSystems.flatMap categoryMap)
    ++ ["Accessories & Services", "Installation & Services"]

/-- The catalog filter step of getFilteredDatabaseString:
productDatabase.filter(p => allowedCategories.includes(p.category || "")). -/
def filteredProducts (db : List Product) (allowed : List String) :
    List Product :=
  db.filter fun p => decide (strOrDefault p.category "" ∈ allowed)

/-- One entry of the curated database excerpt handed to the oracle. -/
structure CuratedEntry where
  brand : String
  model : String
  description : String
  category : Option String
  price : Option ℚ
  currency : String
deriving Repr, DecidableEq

/-- JavaScript p.price || p.price_inr (0 and null both fall through). -/
def priceOf (p : Product) : Option ℚ :=
  match p.price with
  | none => p.price_inr
  | some x => if x = 0 then p.price_inr else some x

/-- getFilteredDatabaseString minus the final JSON stringification: filter the
catalog by the allowed category labels and project each record. -/
def curatedEntries (db : List Product) (allowed : List String) :
    List CuratedEntry :=
  (filteredProducts db allowed).map fun p =>
    { brand := p.brand
      model := strOrDefault p.model (strOrDefault p.awmdb_id "N/A")
      description := p.description
      category := p.category
      price := priceOf p
      currency := match p.price_inr with
        | none => "USD"
        | some x => if x = 0 then "USD" else "INR" }

/-- The questionnaire answers consumed by generateBoq. Geometry fields are
Option values: none models an absent or non-numeric answer (parseFloat gives
NaN). Brand fields are Option lists: none models a non-array value. -/
structure Answers where
  requiredSystems : Option (List String) := none
  displayBrands : Option (List String) := none
  mountBrands : Option (List String) := none
  rackBrands : Option (List String) := none
  microphoneBrands : Option (List String) := none
  dspAmplifierBrands : Option (List String) := none
  speakerBrands : Option (List String) := none
  audioBrands : Option (List String) := none
  vcBrands : Option (List String) := none
  connectivityBrands : Option (List String) := none
  controlBrands : Option (List String) := none
  roomLength : Option ℚ := none
  roomWidth : Option ℚ := none
  roomHeight : Option ℚ := none
  tableLength : Option ℚ := none
  rackDistance : Option ℚ := none
  capacity : Option ℤ := none
deriving Repr, DecidableEq

/-- Room metrics computed inside generateBoq (lines 97 to 104) together with
the derived engineering quantities embedded in the instruction payload
(cable run, microphone / speaker counts, display total run). Total function:
missing inputs are coerced, nothing fails. -/
structure RoomMetrics where
  roomLength : ℚ
  roomWidth : ℚ
  roomHeight : ℚ
  tableLength : ℚ
  rackDistance : ℚ
  capacity : ℤ
  roomArea : ℚ
  roomVolume : ℚ
  cableRunEstimate : ℚ
  ceilingMicCount : ℤ
  tableMicCount : ℤ
  ceilingSpeakerCount : ℤ
  displayTotalRun : ℚ
deriving Repr, DecidableEq

/-- The deterministic room metrics calculator of generateBoq. -/
def computeRoomMetrics (a : Answers) : RoomMetrics :=
  let roomLength := qOrDefault a.roomLength 20
  let roomWidth := qOrDefault a.roomWidth 15
  let roomHeight := qOrDefault a.roomHeight 10
  let tableLength := qOrDefault a.tableLength 12
  let rackDistance := qOrDefault a.rackDistance 30
  let capacity := intOrDefault a.capacity 10
  let roomArea := roomLength * roomWidth
  { roomLength := roomLength
    roomWidth := roomWidth
    roomHeight := roomHeight
    tableLength := tableLength
    rackDistance := rackDistance
    capacity := capacity
    roomArea := roomArea
    roomVolume := roomArea * roomHeight
    cableRunEstimate := (roomLength + roomWidth + rackDistance) * (7 / 5)
    ceilingMicCount := ⌈roomArea / 700⌉
    tableMicCount := ⌈(capacity : ℚ) / 4⌉
    ceilingSpeakerCount := ⌈roomArea / 175⌉
    displayTotalRun := rackDistance + tableLength + 15 }

/-- One line of the dbAvailabilityReport built by generateBoq, kept as
structured data instead of the interpolated prompt string. hasStock models
the line "Database has N BRAND KIND(s) - USE THESE FIRST", noStock models
"Database has NO BRAND KINDs - Generate from web knowledge". -/
inductive ReportLine where
  | hasStock (count : ℕ) (brand : String) (kind : String)
  | noStock (brand : String) (kind : String)
deriving Repr, DecidableEq

/-- The brandPreferences field builder: join the specific array with a comma
separator when it is an array, else fall back to the generic array, else the
empty string. -/
def prefString (specific fallback : Option (List String)) : String :=
  match specific with
  | some l => joinComma l
  | none =>
    match fallback with
    | some l => joinComma l
    | none => ""

/-- pref.split(",").map(b => b.trim()). -/
def splitTrim (s : String) : List String :=
  (splitComma s.data).map fun cs => String.mk (trimChars cs)

/-- One brand-preference block of the dbAvailabilityReport: skipped when the
preference string is falsy, otherwise one line per comma-separated brand,
querying searchDatabase for the given catalog category. -/
def reportFor (db : List Product) (pref : String) (category kind : String) :
    List ReportLine :=
  if pref = "" then []
  else
    (splitTrim pref).map fun brand =>
      let hits := searchDatabase db (some brand) (some category)
      if hits.length > 0 then ReportLine.hasStock hits.length brand kind
      else ReportLine.noStock brand kind

/-- The dbAvailabilityReport of generateBoq: displays, microphones,
DSP/amplifiers, speakers, VC and mounts, in source order. The microphone,
DSP and speaker preferences fall back to the generic audioBrands list. -/
def dbAvailabilityReport (db : List Product) (a : Answers) : List ReportLine :=
  reportFor db (prefString a.displayBrands none) "Display" "Display"
    ++ reportFor db (prefString a.microphoneBrands a.audioBrands)
        "Audio - Microphones" "Microphone"
    ++ reportFor db (prefString a.dspAmplifierBrands a.audioBrands)
        "Audio - DSP & Amplification" "DSP/Amplifier"
    ++ reportFor db (prefString a.speakerBrands a.audioBrands)
        "Audio - Speakers" "Speaker"
    ++ reportFor db (prefString a.vcBrands none)
        "Video Conferencing & Cameras" "VC product"
    ++ reportFor db (prefString a.mountBrands none) "Mounts & Racks" "Mount"

/-- A BOQ line item as parsed from the oracle JSON response. The code casts
the parsed value to BoqItem[] without any runtime validation, so nothing here
is constrained: quantity may be zero or negative and the string fields carry
whatever the oracle produced. margin is the optional per-item margin later
consumed by the pricing code. -/
structure RawItem where
  category : String
  itemDescription : String
  keyRemarks : String
  brand : String
  model : String
  quantity : ℚ
  unitPrice : ℚ
  totalPrice : ℚ
  source : String
  priceSource : String
  margin : Option ℚ := none
deriving Repr, DecidableEq

/-- The per-item post-processing of generateBoq and refineBoq:
item => ({ ...item, totalPrice: item.quantity * item.unitPrice }). -/
def recomputeTotal (i : RawItem) : RawItem :=
  { i with totalPrice := i.quantity * i.unitPrice }

/-- Failure of a generate / refine / validate oracle round trip: either the
SDK call threw, or the (fence-stripped) response text failed JSON.parse. Both
are rethrown by the engine after logging. -/
inductive GenError where
  | oracleFailure (msg : String)
  | parseFailure (raw : String)
deriving Repr, DecidableEq

/-- The message carried by a GenError. -/
def GenError.message : GenError → String
  | .oracleFailure m => m
  | .parseFailure m => m

/-- The structured content generateBoq assembles for the oracle: resolved
category scope, availability report (sourcing directives), room metrics and
the curated catalog excerpt. -/
structure GenRequest where
  requiredSystems : List String
  allowedCategories : List String
  report : List ReportLine
  metrics : RoomMetrics
  catalogExcerpt : List CuratedEntry
deriving Repr, DecidableEq

/-- Assembles the generation request from the catalog and the answers,
following generateBoq lines 60 to 300. -/
def buildGenRequest (db : List Product) (a : Answers) : GenRequest :=
  let rs := requiredSystemsOf a.requiredSystems
  let allowed := allowedCategoriesOf rs
  { requiredSystems := rs
    allowedCategories := allowed
    report := dbAvailabilityReport db a
    metrics := computeRoomMetrics a
    catalogExcerpt := curatedEntries db allowed }

/-- generateBoq: build the request, call the oracle, parse; on success map
every item through recomputeTotal; on failure rethrow. The oracle parameter
bundles the SDK call and JSON.parse: error is a thrown SDK error or a parse
failure, ok is the parsed item array. -/
def generateBoq (db : List Product) (a : Answers)
    (oracle : GenRequest → Except GenError (List RawItem)) :
    Except GenError (List RawItem) :=
  match oracle (buildGenRequest db a) with
  | Except.error e => Except.error e
  | Except.ok items => Except.ok (items.map recomputeTotal)

/-- Keep-first deduplication, the behaviour of [...new Set(xs)]. -/
def jsSetDedup : List String → List String
  | [] => []
  | a :: rest => a :: (jsSetDedup rest).filter fun b => b ≠ a

/-- The structured content refineBoq sends: the current BOQ, the free-text
instruction and a catalog excerpt filtered to the categories already present
in the current BOQ. -/
structure RefineRequest where
  currentBoq : List RawItem
  instruction : String
  catalogExcerpt : List CuratedEntry
deriving Repr

/-- Assembles the refinement request: relevantCategories is
[...new Set(currentBoq.map(item => item.category))]. -/
def buildRefineRequest (db : List Product) (currentBoq : List RawItem)
    (instruction : String) : RefineRequest :=
  { currentBoq := currentBoq
    instruction := instruction
    catalogExcerpt :=
      curatedEntries db (jsSetDedup (currentBoq.map fun i => i.category)) }

/-- refineBoq: same response handling as generateBoq, seeded with the current
BOQ. The input list is only read, never modified. -/
def refineBoq (db : List Product) (currentBoq : List RawItem)
    (instruction : String)
    (oracle : RefineRequest → Except GenError (List RawItem)) :
    Except GenError (List RawItem) :=
  match oracle (buildRefineRequest db currentBoq instruction) with
  | Except.error e => Except.error e
  | Except.ok items => Except.ok (items.map recomputeTotal)

/-- The parsed semantic audit object returned by the validation oracle. The
array fields and the score may be absent from the JSON. -/
structure SemanticAudit where
  isValid : Bool
  warnings : Option (List String) := none
  suggestions : Option (List String) := none
  missingComponents : Option (List String) := none
  score : Option ℚ := none
  complianceNotes : Option (List String) := none
deriving Repr, DecidableEq

/-- The ValidationResult shape returned to the caller. -/
structure ValidationResult where
  isValid : Bool
  warnings : List String
  suggestions : List String
  missingComponents : List String
  score : ℚ
  complianceNotes : List String
deriving Repr, DecidableEq

/-- validateBoq: forwards the oracle audit with || [] defaults on the arrays
and result.score || 0 on the score; when the oracle call or parsing fails it
returns the fixed degraded result (isValid false, score 0). -/
def validateBoq (boq : List RawItem) (requirements : String)
    (oracle : List RawItem → String → Except GenError SemanticAudit) :
    ValidationResult :=
  match oracle boq requirements with
  | Except.ok r =>
    { isValid := r.isValid
      warnings := r.warnings.getD []
      suggestions := r.suggestions.getD []
      missingComponents := r.missingComponents.getD []
      score := qOrDefault r.score 0
      complianceNotes := r.complianceNotes.getD [] }
  | Except.error _ =>
    { isValid := false
      warnings := ["AI validation failed to run. Please check the BOQ manually."]
      suggestions := ["Retry validation or perform manual review."]
      missingComponents := []
      score := 0
      complianceNotes := ["Validation system error - manual review required"] }

/-- The per-room caller state of App.tsx that the refine handler touches. -/
structure RoomState where
  boq : Option (List RawItem) := none
  error : Option String := none
  validationResult : Option ValidationResult := none
deriving Repr, DecidableEq

/-- handleRefineBoq of App.tsx: clear the validation result, call refineBoq
on room.boq || []; on success store the refined BOQ and clear the error; on
failure record the error message and leave the BOQ as it was. -/
def handleRefineBoq (db : List Product) (room : RoomState)
    (instruction : String)
    (oracle : RefineRequest → Except GenError (List RawItem)) : RoomState :=
  let currentBoq := room.boq.getD []
  let cleared := { room with validationResult := none }
  match refineBoq db currentBoq instruction oracle with
  | Except.ok refined => { cleared with boq := some refined, error := none }
  | Except.error e =>
    { cleared with error := some ("Failed to refine: " ++ e.message) }

/-- Number.EPSILON, the rounding nudge used by round2 in exportToXlsx.ts. -/
def jsEpsilon : ℚ := 1 / 2 ^ 52

/-- Math.round: round half toward positive infinity. -/
def jsRound (x : ℚ) : ℤ :=
  ⌊x + 1 / 2⌋

/-- round2 of exportToXlsx.ts:
Math.round((num + Number.EPSILON) * 100) / 100. -/
def round2 (num : ℚ) : ℚ :=
  (jsRound ((num + jsEpsilon) * 100) : ℚ) / 100

/-- effectiveMargin: item.margin !== undefined ? item.margin : margin. No
clamping happens here. -/
def effectiveMargin (itemMargin : Option ℚ) (globalMargin : ℚ) : ℚ :=
  match itemMargin with
  | some m => m
  | none => globalMargin

/-- The unit price computed per item by exportToXlsx:
round2((item.unitPrice * usdToInrRate) * (1 + itemMargin / 100)). -/
def exportUnitPrice (unitPrice rate : ℚ) (itemMargin : Option ℚ)
    (globalMargin : ℚ) : ℚ :=
  let unitPriceConverted := unitPrice * rate
  let marginMultiplier := 1 + effectiveMargin itemMargin globalMargin / 100
  round2 (unitPriceConverted * marginMultiplier)

/-- The line total computed per item by exportToXlsx:
round2(finalUnitPrice * item.quantity). -/
def exportLineTotal (unitPrice rate : ℚ) (itemMargin : Option ℚ)
    (globalMargin quantity : ℚ) : ℚ :=
  round2 (exportUnitPrice unitPrice rate itemMargin globalMargin * quantity)

/-- A partial BoqItem update as passed to handleBoqItemUpdate; a none field
is absent from the update object. Only the fields relevant to pricing are
modelled. -/
structure UpdateValues where
  margin : Option ℚ := none
  quantity : Option ℚ := none
  unitPrice : Option ℚ := none
deriving Repr, DecidableEq

/-- The margin guard of handleBoqItemUpdate: a present negative margin in the
update is replaced by 0 before the update is applied. -/
def clampMarginUpdate (u : UpdateValues) : UpdateValues :=
  match u.margin with
  | some m => if m < 0 then { u with margin := some 0 } else u
  | none => u

/-- Spread semantics of handleBoqItemUpdate on one item:
newBoq[itemIndex] = { ...item, ...updatedValues }. -/
def applyUpdate (item : RawItem) (u : UpdateValues) : RawItem :=
  { item with
    margin := match u.margin with
      | some m => some m
      | none => item.margin
    quantity := u.quantity.getD item.quantity
    unitPrice := u.unitPrice.getD item.unitPrice }

/-- handleBoqItemUpdate of App.tsx, restricted to the BOQ array it rewrites
(assignment to an index beyond the array end is not modelled). -/
def handleBoqItemUpdate (boq : List RawItem) (itemIndex : ℕ)
    (updatedValues : UpdateValues) : List RawItem :=
  let u := clampMarginUpdate updatedValues
  boq.mapIdx fun idx item => if idx = itemIndex then applyUpdate item u else item

/-- BRAND_MAP of the offline normalizer script: messy lower-case brand to
canonical brand. -/
def brandMap : List (String × String) :=
  [("samsung electronics", "Samsung"), ("samsung display", "Samsung"),
   ("samsung inc", "Samsung"), ("samsung", "Samsung"),
   ("lg electronics", "LG"), ("lg display", "LG"), ("lg", "LG"),
   ("sony professional", "Sony"), ("sony corporation", "Sony"),
   ("sony", "Sony"), ("crestron electronics", "Crestron"),
   ("crestron", "Crestron"), ("extron electronics", "Extron"),
   ("extron", "Extron"), ("qsc audio", "QSC"), ("qsc systems", "QSC"),
   ("q-sys", "QSC"), ("qsc", "QSC"), ("shure inc", "Shure"),
   ("shure", "Shure"), ("sennheiser electronic", "Sennheiser"),
   ("sennheiser", "Sennheiser"), ("biamp systems", "Biamp"),
   ("biamp", "Biamp"), ("kramer electronics", "Kramer"),
   ("kramer", "Kramer"), ("polycom", "Poly"), ("poly", "Poly"),
   ("logitech", "Logitech"), ("logitech business", "Logitech"),
   ("yealink network", "Yealink"), ("yealink", "Yealink"),
   ("cisco systems", "Cisco"), ("cisco", "Cisco"), ("barco", "Barco"),
   ("barco nv", "Barco")]

/-- brand.charAt(0).toUpperCase() + brand.slice(1). -/
def capFirst (s : String) : String :=
  match s.data with
  | [] => s
  | c :: cs => String.mk (c.toUpper :: cs)

/-- The brand normalization step of the offline cleaning script: look the
lower-cased, trimmed brand up in BRAND_MAP; when the lookup misses (or maps
the brand to itself) capitalize the first character only. -/
def normalizeBrand (b : String) : String :=
  let lowerBrand := strTrim (strLower b)
  let finalBrand :=
    match brandMap.find? (fun kv => kv.1 == lowerBrand) with
    | some kv => kv.2
    | none => b
  if finalBrand == b then capFirst b else finalBrand

/-- Follows the claim words, not the source: the deterministic display/mount
check the spec ascribes to the validation engine (count of display items must
equal count of mount items, else a critical condition). The source has no
deterministic validation phase; this definition exists only to state the
claim against concrete inputs. Display items are recognized by the display
categories of categoryMap, mount items by the display-support categories. -/
def spec_displayMountMismatch (boq : List RawItem) : Bool :=
  let displays := boq.filter fun i =>
    decide (i.category ∈ ["Display System", "Hiperwall System"])
  let mounts := boq.filter fun i =>
    decide (i.category ∈
      ["Display support system", "Display Support System",
       "Display Supoort System", "Display support System", "Mounts & Racks"])
  displays.length ≠ mounts.length

/-- Follows the claim words, not the source: the unit price the claim
prescribes, with a negative effective margin clamped to 0 before the markup
is applied. -/
def spec_clampedUnitPrice (unitPrice rate : ℚ) (itemMargin : Option ℚ)
    (globalMargin : ℚ) : ℚ :=
  round2 (unitPrice * rate * (1 + max (effectiveMargin itemMargin globalMargin) 0 / 100))

/-- Answers with every field absent: the fully defaulted questionnaire. -/
def answersBlank : Answers := {}

/-- Answers declaring a JBL microphone brand preference and nothing else. -/
def answersJBL : Answers := { microphoneBrands := some ["JBL"] }

/-- A catalog holding one JBL speaker and no JBL microphone. -/
def dbJBL : List Product :=
  [{ brand := "JBL", model := some "Control 26CT",
     description := "Ceiling speaker", category := some "Audio - Speakers",
     price_inr := some 9000 }]

/-- An oracle item of a brand other than the requested one, claiming database
sourcing. -/
def shureMicItem : RawItem :=
  { category := "Audio System"
    itemDescription := "Ceiling array microphone"
    keyRemarks := "k"
    brand := "Shure"
    model := "MXA920"
    quantity := 1
    unitPrice := 250000
    totalPrice := 999
    source := "database"
    priceSource := "database" }

/-- Oracle returning the off-brand microphone item. -/
def oracleShure : GenRequest → Except GenError (List RawItem) :=
  fun _ => Except.ok [shureMicItem]

/-- Oracle returning an empty item array. -/
def oracleEmptyOk : GenRequest → Except GenError (List RawItem) :=
  fun _ => Except.ok []

/-- An oracle item whose quantity times unit price has more than two decimal
places. -/
def fracItem : RawItem :=
  { category := "Audio System"
    itemDescription := "Speaker cable per foot"
    keyRemarks := "k"
    brand := "Generic"
    model := "CBL"
    quantity := 3
    unitPrice := 21 / 200
    totalPrice := 0
    source := "web"
    priceSource := "estimated" }

/-- Oracle returning the fractional-price item. -/
def oracleFrac : GenRequest → Except GenError (List RawItem) :=
  fun _ => Except.ok [fracItem]

/-- An oracle item with quantity zero, which the claimed schema validation
would have to reject. -/
def zeroQtyItem : RawItem :=
  { category := "Display System"
    itemDescription := "Spare display"
    keyRemarks := "k"
    brand := "Samsung"
    model := "QM55"
    quantity := 0
    unitPrice := 100000
    totalPrice := 5
    source := "database"
    priceSource := "database" }

/-- Oracle returning the zero-quantity item. -/
def oracleZeroQty : GenRequest → Except GenError (List RawItem) :=
  fun _ => Except.ok [zeroQtyItem]

/-- A BOQ holding one display item and no mount item. -/
def displayOnlyBoq : List RawItem :=
  [{ category := "Display System"
     itemDescription := "75in commercial display"
     keyRemarks := "k"
     brand := "Samsung"
     model := "QM75"
     quantity := 1
     unitPrice := 200000
     totalPrice := 200000
     source := "database"
     priceSource := "database" }]

/-- A validation oracle that reports a high score and isValid true no matter
what BOQ it is shown. -/
def generousOracle : List RawItem → String → Except GenError SemanticAudit :=
  fun _ _ =>
    Except.ok
      { isValid := true
        warnings := some []
        suggestions := some []
        missingComponents := some []
        score := some 95
        complianceNotes := some [] }

/-- A validation oracle whose call fails. -/
def failingAuditOracle :
    List RawItem → String → Except GenError SemanticAudit :=
  fun _ _ => Except.error (GenError.oracleFailure "timeout")

/-- A refinement oracle whose call fails. -/
def failingRefineOracle : RefineRequest → Except GenError (List RawItem) :=
  fun _ => Except.error (GenError.oracleFailure "network error")

/-- A BOQ item held by the room before a refinement attempt. -/
def existingDisplayItem : RawItem :=
  { category := "Display System"
    itemDescription := "65in commercial display"
    keyRemarks := "k"
    brand := "LG"
    model := "UH5F"
    quantity := 2
    unitPrice := 150000
    totalPrice := 300000
    source := "database"
    priceSource := "database" }

/-- A room that already carries a BOQ and a stale validation result. -/
def roomWithBoq : RoomState :=
  { boq := some [existingDisplayItem]
    error := none
    validationResult :=
      some { isValid := true, warnings := [], suggestions := [],
             missingComponents := [], score := 80, complianceNotes := [] } }

/-- Answers whose geometry gives a room area of exactly 700 square feet. -/
def answers700 : Answers := { roomLength := some 35, roomWidth := some 20 }

/-- Answers whose geometry gives a room area of exactly 701 square feet. -/
def answers701 : Answers := { roomLength := some 701, roomWidth := some 1 }

/-- Projection fact: the request report is the availability report. -/
theorem buildGenRequest_report (db : List Product) (a : Answers) :
    (buildGenRequest db a).report = dbAvailabilityReport db a := rfl

/-- Projection fact: the request category scope comes from the resolver. -/
theorem buildGenRequest_allowed (db : List Product) (a : Answers) :
    (buildGenRequest db a).allowedCategories
      = allowedCategoriesOf (requiredSystemsOf a.requiredSystems) := rfl

/-- Membership is invariant under the keep-first deduplication. -/
theorem mem_jsSetDedup (x : String) (l : List String) :
    x ∈ jsSetDedup l ↔ x ∈ l := by
  induction l with
  | nil => simp [jsSetDedup]
  | cons a rest ih =>
    simp only [jsSetDedup, List.mem_cons, List.mem_filter, ih,
      decide_eq_true_eq]
    by_cases h : x = a
    · simp [h]
    · simp [h]

/-- C9: the offline normalizer maps a raw brand through the alias table by
case-insensitive exact match, so SAMSUNG ELECTRONICS becomes Samsung; any
brand whose lower-cased trimmed form is not a key of the table only gets its
first letter capitalized, with the remaining casing untouched, so Weirdbrand
stays Weirdbrand and weirdbrand becomes Weirdbrand: full title-case is never
applied. -/
theorem c9_brand_normalization :
    normalizeBrand "SAMSUNG ELECTRONICS" = "Samsung" ∧
    normalizeBrand "Weirdbrand" = "Weirdbrand" ∧
    normalizeBrand "weirdbrand" = "Weirdbrand" ∧
    ∀ b : String,
      brandMap.find? (fun kv => kv.1 == strTrim (strLower b)) = none →
      normalizeBrand b = capFirst b := by
  refine ⟨by decide, by decide, by decide, ?_⟩
  intro b h
  simp [normalizeBrand, h]

/-- Witness for C9 at a brand that is not in the alias table. -/
theorem c9_brand_normalization_witness :
    normalizeBrand "Bose" = capFirst "Bose" :=
  c9_brand_normalization.2.2.2 "Bose" (by decide)

/-- C6: the room metrics calculator is total and deterministic; absent
geometry answers are coerced to the defaults 20, 15, 10, 12, 30 and 10, and
the outputs satisfy the stated closed formulas, with the ceiling-microphone
count crossing from 1 to 2 between area 700 and area 701. -/
theorem c6_room_metrics (a : Answers) :
    (a.roomLength = none → (computeRoomMetrics a).roomLength = 20) ∧
    (a.roomWidth = none → (computeRoomMetrics a).roomWidth = 15) ∧
    (a.roomHeight = none → (computeRoomMetrics a).roomHeight = 10) ∧
    (a.tableLength = none → (computeRoomMetrics a).tableLength = 12) ∧
    (a.rackDistance = none → (computeRoomMetrics a).rackDistance = 30) ∧
    (a.capacity = none → (computeRoomMetrics a).capacity = 10) ∧
    (computeRoomMetrics a).roomArea
      = (computeRoomMetrics a).roomLength * (computeRoomMetrics a).roomWidth ∧
    (computeRoomMetrics a).roomVolume
      = (computeRoomMetrics a).roomArea * (computeRoomMetrics a).roomHeight ∧
    (computeRoomMetrics a).cableRunEstimate
      = ((computeRoomMetrics a).roomLength + (computeRoomMetrics a).roomWidth
          + (computeRoomMetrics a).rackDistance) * (7 / 5) ∧
    (computeRoomMetrics a).ceilingMicCount
      = ⌈(computeRoomMetrics a).roomArea / 700⌉ ∧
    (computeRoomMetrics a).tableMicCount
      = ⌈((computeRoomMetrics a).capacity : ℚ) / 4⌉ ∧
    (computeRoomMetrics a).ceilingSpeakerCount
      = ⌈(computeRoomMetrics a).roomArea / 175⌉ ∧
    (computeRoomMetrics a).displayTotalRun
      = (computeRoomMetrics a).rackDistance
          + (computeRoomMetrics a).tableLength + 15 ∧
    (computeRoomMetrics answers700).roomArea = 700 ∧
    (computeRoomMetrics answers700).ceilingMicCount = 1 ∧
    (computeRoomMetrics answers701).roomArea = 701 ∧
    (computeRoomMetrics answers701).ceilingMicCount = 2 := by
  refine ⟨fun h => by simp [computeRoomMetrics, qOrDefault, h],
    fun h => by simp [computeRoomMetrics, qOrDefault, h],
    fun h => by simp [computeRoomMetrics, qOrDefault, h],
    fun h => by simp [computeRoomMetrics, qOrDefault, h],
    fun h => by simp [computeRoomMetrics, qOrDefault, h],
    fun h => by simp [computeRoomMetrics, intOrDefault, h],
    rfl, rfl, rfl, rfl, rfl, rfl, rfl, ?_, ?_, ?_, ?_⟩
  · simp [computeRoomMetrics, answers700, qOrDefault]
    norm_num
  · show (⌈(computeRoomMetrics answers700).roomArea / 700⌉ : ℤ) = 1
    have h : (computeRoomMetrics answers700).roomArea = 700 := by
      simp [computeRoomMetrics, answers700, qOrDefault]
      norm_num
    rw [h, Int.ceil_eq_iff]; norm_num
  · norm_num [computeRoomMetrics, answers701, qOrDefault]
  · show (⌈(computeRoomMetrics answers701).roomArea / 700⌉ : ℤ) = 2
    have h : (computeRoomMetrics answers701).roomArea = 701 := by
      norm_num [computeRoomMetrics, answers701, qOrDefault]
    rw [h, Int.ceil_eq_iff]; norm_num

/-- Witness for C6 at the fully defaulted answers. -/
theorem c6_room_metrics_witness :
    (computeRoomMetrics answersBlank).roomLength = 20 ∧
    (computeRoomMetrics answersBlank).roomWidth = 15 ∧
    (computeRoomMetrics answersBlank).roomHeight = 10 ∧
    (computeRoomMetrics answersBlank).tableLength = 12 ∧
    (computeRoomMetrics answersBlank).rackDistance = 30 ∧
    (computeRoomMetrics answersBlank).capacity = 10 :=
  ⟨(c6_room_metrics answersBlank).1 rfl,
   (c6_room_metrics answersBlank).2.1 rfl,
   (c6_room_metrics answersBlank).2.2.1 rfl,
   (c6_room_metrics answersBlank).2.2.2.1 rfl,
   (c6_room_metrics answersBlank).2.2.2.2.1 rfl,
   (c6_room_metrics answersBlank).2.2.2.2.2.1 rfl⟩

/-- C10: when the answers carry no requiredSystems list, generation uses all
six abstract system keys, so the allowed catalog categories are every mapped
concrete category plus the two always-included service categories. -/
theorem c10_default_system_scope (db : List Product) (a : Answers)
    (h : a.requiredSystems = none) :
    requiredSystemsOf a.requiredSystems = knownSystemKeys ∧
    (buildGenRequest db a).allowedCategories =
      ["Display System", "Hiperwall System", "VC system", "VC System",
       "Audio System", "Cables & Connectors", "Cables and Connectors",
       "Control System", "Room Scheduler", "Display support system",
       "Display Support System", "Display Supoort System",
       "Display support System", "AV Rack System", "AV Rack system",
       "Acoustic Treatment", "Accessories & Services",
       "Installation & Services"] := by
  constructor
  · rw [h]; rfl
  · rw [buildGenRequest_allowed, h]; rfl

/-- Witness for C10 at the fully defaulted answers and the empty catalog. -/
theorem c10_default_system_scope_witness :
    requiredSystemsOf answersBlank.requiredSystems = knownSystemKeys ∧
    (buildGenRequest [] answersBlank).allowedCategories =
      ["Display System", "Hiperwall System", "VC system", "VC System",
       "Audio System", "Cables & Connectors", "Cables and Connectors",
       "Control System", "Room Scheduler", "Display support system",
       "Display Support System", "Display Supoort System",
       "Display support System", "AV Rack System", "AV Rack system",
       "Acoustic Treatment", "Accessories & Services",
       "Installation & Services"] :=
  c10_default_system_scope [] answersBlank rfl

/-- C8 (amended): unknown abstract keys resolve to the empty set and never
fail, the two service categories are always appended, and although the label
list is not deduplicated, duplicates do not change which catalog records pass
the membership filter. -/
theorem c8_category_resolver :
    (∀ s : String, s ∉ knownSystemKeys → categoryMap s = []) ∧
    (∀ rs : List String,
      "Accessories & Services" ∈ allowedCategoriesOf rs ∧
      "Installation & Services" ∈ allowedCategoriesOf rs) ∧
    (∀ (db : List Product) (rs : List String),
      filteredProducts db (allowedCategoriesOf rs)
        = filteredProducts db (jsSetDedup (allowedCategoriesOf rs))) := by
  refine ⟨?_, ?_, ?_⟩
  · intro s hs
    simp only [knownSystemKeys, List.mem_cons, List.not_mem_nil, or_false,
      not_or] at hs
    obtain ⟨h1, h2, h3, h4, h5, h6⟩ := hs
    simp [categoryMap, h1, h2, h3, h4, h5, h6]
  · intro rs
    constructor <;> simp [allowedCategoriesOf]
  · intro db rs
    unfold filteredProducts
    apply List.filter_congr
    intro p _
    simp [mem_jsSetDedup]

/-- Witness for C8 at a concrete unknown key and system list. -/
theorem c8_category_resolver_witness :
    categoryMap "hvac" = [] ∧
    "Accessories & Services" ∈ allowedCategoriesOf ["audio"] ∧
    filteredProducts dbJBL (allowedCategoriesOf ["audio"])
      = filteredProducts dbJBL (jsSetDedup (allowedCategoriesOf ["audio"])) :=
  ⟨c8_category_resolver.1 "hvac" (by decide),
   (c8_category_resolver.2.1 ["audio"]).1,
   c8_category_resolver.2.2 dbJBL ["audio"]⟩

/-- Counterexample for C8 as stated: a repeated system key makes the allowed
label list contain duplicates, so the list used to filter the catalog is not
deduplicated. -/
theorem c8_dedup_counterexample :
    allowedCategoriesOf ["audio", "audio"]
      = ["Audio System", "Audio System", "Accessories & Services",
         "Installation & Services"] ∧
    ¬ (allowedCategoriesOf ["audio", "audio"]).Nodup := by
  constructor
  · rfl
  · decide

/-- C1 (amended): when a brand preference B is declared for the microphone
sub-category and the catalog has zero matches for B in Audio - Microphones,
generateBoq emits the generate-from-web-knowledge directive for B in its
availability report, and it passes every oracle item through unchanged except
for recomputing totalPrice: the engine itself never substitutes brand, source
or priceSource, but it also does not enforce them on the returned items. -/
theorem c1_brand_directive_and_passthrough (db : List Product) (a : Answers)
    (B : String) (oracle : GenRequest → Except GenError (List RawItem))
    (items : List RawItem)
    (hpref : prefString a.microphoneBrands a.audioBrands = B)
    (hne : B ≠ "")
    (hsplit : splitTrim B = [B])
    (hzero : searchDatabase db (some B) (some "Audio - Microphones") = [])
    (hok : oracle (buildGenRequest db a) = Except.ok items) :
    ReportLine.noStock B "Microphone" ∈ (buildGenRequest db a).report ∧
    generateBoq db a oracle = Except.ok (items.map recomputeTotal) ∧
    ∀ i ∈ items,
      (recomputeTotal i).brand = i.brand ∧
      (recomputeTotal i).source = i.source ∧
      (recomputeTotal i).priceSource = i.priceSource := by
  refine ⟨?_, ?_, ?_⟩
  · have hmic :
        reportFor db (prefString a.microphoneBrands a.audioBrands)
          "Audio - Microphones" "Microphone"
          = [ReportLine.noStock B "Microphone"] := by
      rw [hpref]
      simp [reportFor, hne, hsplit, hzero]
    rw [buildGenRequest_report]
    simp only [dbAvailabilityReport]
    rw [hmic]
    simp
  · simp [generateBoq, hok]
  · intro i _
    exact ⟨rfl, rfl, rfl⟩

/-- Witness for C1 at the JBL answers and a catalog without JBL microphones. -/
theorem c1_brand_directive_witness :
    ReportLine.noStock "JBL" "Microphone"
      ∈ (buildGenRequest dbJBL answersJBL).report ∧
    generateBoq dbJBL answersJBL oracleEmptyOk
      = Except.ok (([] : List RawItem).map recomputeTotal) ∧
    ∀ i ∈ ([] : List RawItem),
      (recomputeTotal i).brand = i.brand ∧
      (recomputeTotal i).source = i.source ∧
      (recomputeTotal i).priceSource = i.priceSource :=
  c1_brand_directive_and_passthrough dbJBL answersJBL "JBL" oracleEmptyOk []
    (by decide) (by decide) (by decide) (by decide) rfl

/-- Counterexample for C1 as stated: with a declared JBL microphone
preference and zero JBL microphones in the catalog, an oracle answer whose
microphone line carries brand Shure with database sourcing is returned by
generateBoq exactly as produced, so the returned item does not have brand
JBL, its source is not web and its priceSource is not estimated. -/
theorem c1_brand_lock_counterexample :
    answersJBL.microphoneBrands = some ["JBL"] ∧
    searchDatabase dbJBL (some "JBL") (some "Audio - Microphones") = [] ∧
    generateBoq dbJBL answersJBL oracleShure
      = Except.ok [recomputeTotal shureMicItem] ∧
    (recomputeTotal shureMicItem).brand = "Shure" ∧
    (recomputeTotal shureMicItem).source = "database" ∧
    (recomputeTotal shureMicItem).priceSource = "database" ∧
    ("Shure" : String) ≠ "JBL" ∧
    ("database" : String) ≠ "web" ∧
    ("database" : String) ≠ "estimated" :=
  ⟨rfl, by decide, rfl, rfl, rfl, rfl, by decide, by decide, by decide⟩

/-- C2 (amended): every item of a BOQ returned by generateBoq or refineBoq
satisfies totalPrice = quantity * unitPrice exactly, with no rounding
applied; the totalPrice supplied by the oracle is discarded for every item. -/
theorem c2_total_recompute (db : List Product) (a : Answers)
    (goracle : GenRequest → Except GenError (List RawItem))
    (currentBoq : List RawItem) (instruction : String)
    (roracle : RefineRequest → Except GenError (List RawItem)) :
    (∀ out, generateBoq db a goracle = Except.ok out →
      ∀ i ∈ out, i.totalPrice = i.quantity * i.unitPrice) ∧
    (∀ out, refineBoq db currentBoq instruction roracle = Except.ok out →
      ∀ i ∈ out, i.totalPrice = i.quantity * i.unitPrice) ∧
    (∀ (i : RawItem) (t : ℚ),
      recomputeTotal { i with totalPrice := t } = recomputeTotal i) := by
  refine ⟨?_, ?_, fun i t => rfl⟩
  · intro out hout i hi
    unfold generateBoq at hout
    cases h : goracle (buildGenRequest db a) with
    | error e => rw [h] at hout; exact absurd hout (by simp)
    | ok items =>
      rw [h] at hout
      simp only [Except.ok.injEq] at hout
      subst hout
      obtain ⟨j, _, rfl⟩ := List.mem_map.mp hi
      rfl
  · intro out hout i hi
    unfold refineBoq at hout
    cases h : roracle (buildRefineRequest db currentBoq instruction) with
    | error e => rw [h] at hout; exact absurd hout (by simp)
    | ok items =>
      rw [h] at hout
      simp only [Except.ok.injEq] at hout
      subst hout
      obtain ⟨j, _, rfl⟩ := List.mem_map.mp hi
      rfl

/-- Witness for C2 at a concrete generation run. -/
theorem c2_total_recompute_witness :
    (recomputeTotal fracItem).totalPrice
      = (recomputeTotal fracItem).quantity * (recomputeTotal fracItem).unitPrice :=
  (c2_total_recompute [] answersBlank oracleFrac [] "" failingRefineOracle).1
    [recomputeTotal fracItem] rfl (recomputeTotal fracItem) (by simp)

/-- Counterexample for C2 as stated: a returned item with quantity 3 and unit
price 0.105 carries totalPrice 0.315, while round2 of quantity times unit
price is 0.32, so totalPrice is not the rounded product. -/
theorem c2_total_rounding_counterexample :
    generateBoq [] answersBlank oracleFrac = Except.ok [recomputeTotal fracItem] ∧
    (recomputeTotal fracItem).totalPrice = 63 / 200 ∧
    round2 ((recomputeTotal fracItem).quantity * (recomputeTotal fracItem).unitPrice)
      = 8 / 25 ∧
    (63 / 200 : ℚ) ≠ 8 / 25 := by
  refine ⟨rfl, ?_, ?_, by norm_num⟩
  · show fracItem.quantity * fracItem.unitPrice = 63 / 200
    norm_num [fracItem]
  · show round2 (fracItem.quantity * fracItem.unitPrice) = 8 / 25
    have h : fracItem.quantity * fracItem.unitPrice = 63 / 200 := by
      norm_num [fracItem]
    rw [h]
    unfold round2 jsRound jsEpsilon
    norm_num

/-- C3 (amended): generateBoq fails the whole operation exactly when the
oracle call fails or the response is not valid JSON, propagating the error
to the caller; on a parsed response it returns one item per oracle item (no
item is dropped), performing no per-item schema validation. -/
theorem c3_failfast_oracle_and_parse (db : List Product) (a : Answers)
    (oracle : GenRequest → Except GenError (List RawItem)) :
    (∀ e, oracle (buildGenRequest db a) = Except.error e →
      generateBoq db a oracle = Except.error e) ∧
    (∀ items, oracle (buildGenRequest db a) = Except.ok items →
      generateBoq db a oracle = Except.ok (items.map recomputeTotal) ∧
      (items.map recomputeTotal).length = items.length) := by
  constructor
  · intro e h
    simp [generateBoq, h]
  · intro items h
    refine ⟨by simp [generateBoq, h], by simp⟩

/-- Witness for C3 at a failing oracle and at a successful oracle. -/
theorem c3_failfast_witness :
    generateBoq [] answersBlank (fun _ => Except.error (GenError.parseFailure "not json"))
      = Except.error (GenError.parseFailure "not json") ∧
    generateBoq [] answersBlank oracleFrac = Except.ok ([fracItem].map recomputeTotal) :=
  ⟨(c3_failfast_oracle_and_parse [] answersBlank
      (fun _ => Except.error (GenError.parseFailure "not json"))).1
      (GenError.parseFailure "not json") rfl,
   ((c3_failfast_oracle_and_parse [] answersBlank oracleFrac).2 [fracItem] rfl).1⟩

/-- Counterexample for C3 as stated: an oracle response whose only item has
quantity 0 is accepted, not rejected: generateBoq succeeds and returns the
item with its total recomputed, so schema-violating items do not fail the
operation. -/
theorem c3_schema_counterexample :
    zeroQtyItem.quantity ≤ 0 ∧
    generateBoq [] answersBlank oracleZeroQty
      = Except.ok [recomputeTotal zeroQtyItem] ∧
    (generateBoq [] answersBlank oracleZeroQty).isOk = true := by
  refine ⟨?_, rfl, rfl⟩
  show (0 : ℚ) ≤ 0
  norm_num

/-- C4 (amended): validateBoq has no deterministic validation phase and no
score floor: on a successful oracle call it returns the oracle isValid and
score unchanged (an absent or zero score becomes 0), whatever the BOQ looks
like; only when the oracle call itself fails does it return isValid false
with the fixed score 0, which is at most 59. -/
theorem c4_oracle_passthrough_validation (boq : List RawItem) (req : String)
    (oracle : List RawItem → String → Except GenError SemanticAudit) :
    (∀ r, oracle boq req = Except.ok r →
      (validateBoq boq req oracle).isValid = r.isValid ∧
      (validateBoq boq req oracle).score = qOrDefault r.score 0) ∧
    (∀ e, oracle boq req = Except.error e →
      (validateBoq boq req oracle).isValid = false ∧
      (validateBoq boq req oracle).score = 0 ∧
      (validateBoq boq req oracle).score ≤ 59) := by
  constructor
  · intro r h
    constructor <;> simp [validateBoq, h]
  · intro e h
    refine ⟨by simp [validateBoq, h], by simp [validateBoq, h], ?_⟩
    simp [validateBoq, h]

/-- Witness for C4 at a failing audit oracle. -/
theorem c4_validation_witness :
    (validateBoq [] "req" failingAuditOracle).isValid = false ∧
    (validateBoq [] "req" failingAuditOracle).score ≤ 59 :=
  ⟨((c4_oracle_passthrough_validation [] "req" failingAuditOracle).2
      (GenError.oracleFailure "timeout") rfl).1,
   ((c4_oracle_passthrough_validation [] "req" failingAuditOracle).2
      (GenError.oracleFailure "timeout") rfl).2.2⟩

/-- Counterexample for C4 as stated: a BOQ with one display and zero mounts
is the critical condition the claim names, yet with a generous semantic
oracle validateBoq returns isValid true and score 95, so neither the isValid
floor nor the score cap of 59 is applied. -/
theorem c4_floor_counterexample :
    spec_displayMountMismatch displayOnlyBoq = true ∧
    (validateBoq displayOnlyBoq "displays need mounts" generousOracle).isValid
      = true ∧
    (validateBoq displayOnlyBoq "displays need mounts" generousOracle).score
      = 95 ∧
    ¬ ((95 : ℚ) ≤ 59) := by
  refine ⟨by decide, rfl, ?_, by norm_num⟩
  show qOrDefault (some 95) 0 = 95
  norm_num [qOrDefault]

/-- C5: refinement failure is atomic for the caller: when the oracle round
trip fails, handleRefineBoq keeps the previous BOQ of the room, records only
the error message (the validation result was cleared when the refinement
started), and refineBoq passed the current BOQ to the oracle unmodified. -/
theorem c5_refine_atomicity (db : List Product) (room : RoomState)
    (instruction : String)
    (oracle : RefineRequest → Except GenError (List RawItem)) (e : GenError)
    (h : oracle (buildRefineRequest db (room.boq.getD []) instruction)
      = Except.error e) :
    (handleRefineBoq db room instruction oracle).boq = room.boq ∧
    (handleRefineBoq db room instruction oracle).error
      = some ("Failed to refine: " ++ e.message) ∧
    (handleRefineBoq db room instruction oracle).validationResult = none ∧
    (buildRefineRequest db (room.boq.getD []) instruction).currentBoq
      = room.boq.getD [] := by
  refine ⟨?_, ?_, ?_, rfl⟩ <;>
    simp [handleRefineBoq, refineBoq, h]

/-- Witness for C5 at a room with an existing BOQ and a failing oracle. -/
theorem c5_refine_atomicity_witness :
    (handleRefineBoq dbJBL roomWithBoq "make it cheaper" failingRefineOracle).boq
      = roomWithBoq.boq ∧
    (handleRefineBoq dbJBL roomWithBoq "make it cheaper" failingRefineOracle).error
      = some ("Failed to refine: "
          ++ (GenError.oracleFailure "network error").message) ∧
    (handleRefineBoq dbJBL roomWithBoq "make it cheaper"
        failingRefineOracle).validationResult = none ∧
    (buildRefineRequest dbJBL (roomWithBoq.boq.getD []) "make it cheaper").currentBoq
      = roomWithBoq.boq.getD [] :=
  c5_refine_atomicity dbJBL roomWithBoq "make it cheaper" failingRefineOracle
    (GenError.oracleFailure "network error") rfl

/-- C7 (amended): the export pricing computes
unitPriceFinal = round2(unitPrice * rate * (1 + effectiveMargin / 100)) with
effectiveMargin = item margin when present, else the global margin, applied
as-is with no clamping of negative values; the line total is
round2(unitPriceFinal * quantity), each value rounded once; the only clamp of
a negative margin sits in the BOQ item-update handler, which stores 0 in
place of a negative margin edit. -/
theorem c7_pricing_pipeline (unitPrice rate : ℚ) (itemMargin : Option ℚ)
    (globalMargin quantity : ℚ) :
    exportUnitPrice unitPrice rate itemMargin globalMargin
      = round2 (unitPrice * rate * (1 + itemMargin.getD globalMargin / 100)) ∧
    effectiveMargin itemMargin globalMargin = itemMargin.getD globalMargin ∧
    exportLineTotal unitPrice rate itemMargin globalMargin quantity
      = round2 (exportUnitPrice unitPrice rate itemMargin globalMargin * quantity) ∧
    (∀ m : ℚ, m < 0 →
      clampMarginUpdate { margin := some m } = { margin := some 0 }) ∧
    (∀ m : ℚ, 0 ≤ m →
      clampMarginUpdate { margin := some m } = { margin := some m }) := by
  refine ⟨?_, ?_, rfl, ?_, ?_⟩
  · cases itemMargin <;> rfl
  · cases itemMargin <;> rfl
  · intro m hm
    simp [clampMarginUpdate, hm]
  · intro m hm
    simp [clampMarginUpdate, not_lt.mpr hm]

/-- Witness for C7 at concrete prices and margins. -/
theorem c7_pricing_witness :
    exportUnitPrice 100 2 none 10
      = round2 (100 * 2 * (1 + (none : Option ℚ).getD 10 / 100)) ∧
    clampMarginUpdate { margin := some (-5) } = { margin := some 0 } :=
  ⟨(c7_pricing_pipeline 100 2 none 10 0).1,
   (c7_pricing_pipeline 100 2 none 10 0).2.2.2.1 (-5) (by norm_num)⟩

/-- Counterexample for C7 as stated: with an item margin of minus 50 percent,
the export pricing yields a final unit price of 50 for unit price 100 and
rate 1, while the claimed formula with the negative margin clamped to 0
yields 100, so the calculator does not clamp negative margins. -/
theorem c7_margin_clamp_counterexample :
    exportUnitPrice 100 1 (some (-50)) 5 = 50 ∧
    spec_clampedUnitPrice 100 1 (some (-50)) 5 = 100 ∧
    ((50 : ℚ) ≠ 100) := by
  refine ⟨?_, ?_, by norm_num⟩
  · unfold exportUnitPrice effectiveMargin round2 jsRound jsEpsilon
    norm_num
  · unfold spec_clampedUnitPrice effectiveMargin round2 jsRound jsEpsilon
    norm_num

end BINGO
